import Mathlib

/-
Shallow embedding of the snfrs event-attendance tracker
(src/app/models.py, src/app/schemas.py, src/app/crud.py).

Timestamps are modelled as integers (datetime is totally ordered and only
compared / copied by the code under study).  The SQLAlchemy session is
modelled as an explicit `DB` value threaded through every operation; the
ORM's in-place mutation of a row object fetched by `first()` is modelled
by replacing the first matching element of the table's row list.
-/

namespace Snfrs

/-- A row of the `users` table (src/app/models.py, class User). -/
structure User where
  id : Nat
  email : Option String
  name : String
  hashed_password : String
  discord_user_id : Option String
  discord_username : Option String
  is_active : Bool
  is_admin : Bool
  created_at : Int
  updated_at : Option Int
  deriving DecidableEq, Repr

/-- A row of the `events` table (src/app/models.py, class Event). -/
structure Event where
  id : Nat
  title : String
  description : Option String
  start_time : Int
  end_time : Int
  discord_channel_id : Option String
  user_id : Nat
  is_active : Bool
  created_at : Int
  updated_at : Option Int
  deriving DecidableEq, Repr

/-- A row of the `user_event_attendance` association table
(src/app/models.py): primary key (user_id, event_id) plus the
server-assigned `attended_at` timestamp. -/
structure AttendanceRow where
  user_id : Nat
  event_id : Nat
  attended_at : Int
  deriving DecidableEq, Repr

/-- The database state: the three tables plus the autoincrement counters
for the two surrogate primary keys. -/
structure DB where
  users : List User
  events : List Event
  attendance : List AttendanceRow
  nextUserId : Nat
  nextEventId : Nat
  deriving DecidableEq, Repr

/-- Replaces the first element satisfying `p` by `x`; models SQLAlchemy
mutating, in place, the row object returned by `query(...).first()`. -/
def replaceFirst {α : Type} : List α → (α → Bool) → α → List α
  | [], _, _ => []
  | y :: ys, p, x => if p y then x :: ys else y :: replaceFirst ys p x

/-- crud.get_user: first users row with the given id. -/
def get_user (db : DB) (user_id : Nat) : Option User :=
  db.users.find? (fun u => u.id == user_id)

/-- crud.get_user_by_discord_id. -/
def get_user_by_discord_id (db : DB) (discord_user_id : String) : Option User :=
  db.users.find? (fun u => u.discord_user_id == some discord_user_id)

/-- Character-wise lowercasing (semantically String.toLower, stated over
the character list so that it evaluates in the kernel). -/
def strLower (s : String) : String :=
  ⟨s.data.map Char.toLower⟩

/-- crud.get_user_by_name: `ilike` with no wildcard is case-insensitive
equality. -/
def get_user_by_name (db : DB) (name : String) : Option User :=
  db.users.find? (fun u => strLower u.name == strLower name)

/-- crud.get_event. -/
def get_event (db : DB) (event_id : Nat) : Option Event :=
  db.events.find? (fun e => e.id == event_id)

/-- schemas.EventStatus: exactly the seven fields of the pydantic model. -/
structure EventStatus where
  event_id : Nat
  title : String
  status : String
  can_attend : Bool
  start_time : Int
  end_time : Int
  current_time : Int
  deriving DecidableEq, Repr

/-- crud.get_event_status: `None` when the event is absent or inactive,
otherwise the three-way time classification against `now`. -/
def get_event_status (db : DB) (event_id : Nat) (now : Int) : Option EventStatus :=
  match get_event db event_id with
  | none => none
  | some e =>
    if !e.is_active then none
    else if now < e.start_time then
      some { event_id := e.id, title := e.title,
             status := "Event has not started yet", can_attend := false,
             start_time := e.start_time, end_time := e.end_time,
             current_time := now }
    else if now > e.end_time then
      some { event_id := e.id, title := e.title,
             status := "Event has ended", can_attend := false,
             start_time := e.start_time, end_time := e.end_time,
             current_time := now }
    else
      some { event_id := e.id, title := e.title,
             status := "Event is currently active", can_attend := true,
             start_time := e.start_time, end_time := e.end_time,
             current_time := now }

/-- crud.can_attend_event. -/
def can_attend_event (db : DB) (event_id : Nat) (now : Int) :
    Bool × Option String :=
  match get_event_status db event_id now with
  | none => (false, some "Event not found or inactive")
  | some st => if !st.can_attend then (false, some st.status) else (true, none)

/-- Membership of (user, event) in the attendance relation; models
`db_event in db_user.attended_events` on the ORM relationship backed by
the association table. -/
def attended_events_mem (db : DB) (user_id event_id : Nat) : Bool :=
  db.attendance.any (fun r => r.user_id == user_id && r.event_id == event_id)

/-- crud.mark_attendance: time-gated, idempotent attendance marking.
Returns ((event?, message?), new database state); `attended_at` is the
server-assigned insertion time, modelled by `now`. -/
def mark_attendance (db : DB) (user_id event_id : Nat) (now : Int) :
    (Option Event × Option String) × DB :=
  let ce := can_attend_event db event_id now
  if !ce.1 then ((none, ce.2), db)
  else
    match get_user db user_id, get_event db event_id with
    | some _, some e =>
      if attended_events_mem db user_id event_id then
        ((some e, some "Already marked as attended"), db)
      else
        ((some e, none),
         { db with attendance := db.attendance ++ [⟨user_id, event_id, now⟩] })
    | _, _ => ((none, some "User or event not found"), db)

/-- crud.get_active_events: active events whose window contains `now`. -/
def get_active_events (db : DB) (now : Int) : List Event :=
  db.events.filter
    (fun e => e.is_active && decide (e.start_time ≤ now) && decide (e.end_time ≥ now))

/-- crud.get_single_ongoing_event. -/
def get_single_ongoing_event (db : DB) (now : Int) :
    Option Event × Option String :=
  let ongoing := get_active_events db now
  if ongoing.length == 0 then
    (none, some "Nenhum evento rolando agora, parça! Cola mais tarde.")
  else if ongoing.length > 1 then
    (none, some "Opa, tem mais de um evento rolando! Usa `/events` para ver todos.")
  else
    (ongoing.head?, none)

/-- crud.check_user_attendance. -/
def check_user_attendance (db : DB) (user_id event_id : Nat) : Bool :=
  match get_user db user_id, get_event db event_id with
  | some _, some _ => attended_events_mem db user_id event_id
  | _, _ => false

/-- crud.check_discord_user_attendance. -/
def check_discord_user_attendance (db : DB) (discord_user_id : String)
    (event_id : Nat) : Bool :=
  match get_user_by_discord_id db discord_user_id, get_event db event_id with
  | some u, some _ => attended_events_mem db u.id event_id
  | _, _ => false

/-- schemas.UserCreateDiscord: the external-identity registration payload. -/
structure UserCreateDiscord where
  name : String
  discord_user_id : String
  discord_username : String
  email : Option String
  deriving DecidableEq, Repr

/-- Modelled from the spec: app.auth.get_password_hash is not under src/;
the spec only requires a credential to be synthesized and stored ("any
value works — it is never used for login"), so hashing is modelled as a
plain string transformation. -/
def get_password_hash (password : String) : String :=
  "hashed:" ++ password

/-- crud.create_discord_user: creates a user with a synthesized temporary
credential; the fresh surrogate id comes from the autoincrement counter. -/
def create_discord_user (db : DB) (user : UserCreateDiscord) (now : Int) :
    User × DB :=
  let temp_password := "discord_" ++ user.discord_user_id ++ "_" ++ toString now
  let db_user : User :=
    { id := db.nextUserId, email := user.email, name := user.name,
      hashed_password := get_password_hash temp_password,
      discord_user_id := some user.discord_user_id,
      discord_username := some user.discord_username,
      is_active := true, is_admin := false, created_at := now,
      updated_at := none }
  (db_user,
   { db with users := db.users ++ [db_user], nextUserId := db.nextUserId + 1 })

/-- The field-by-field reconciliation of crud.upsert_discord_user, lines
79-91: name, then discord_username, then (only when the payload carries
one) email, each overwritten when it differs, with the changed field names
recorded in order. -/
def upsert_reconcile (existing_user : User) (user : UserCreateDiscord) :
    User × List String :=
  let s1 :=
    if existing_user.name != user.name then
      ({ existing_user with name := user.name }, ["name"])
    else (existing_user, [])
  let s2 :=
    if s1.1.discord_username != some user.discord_username then
      ({ s1.1 with discord_username := some user.discord_username },
       s1.2 ++ ["discord_username"])
    else s1
  match user.email with
  | some em =>
    if s2.1.email != some em then
      ({ s2.1 with email := some em }, s2.2 ++ ["email"])
    else s2
  | none => s2

/-- crud.upsert_discord_user: lookup by Discord id; if found, field
reconciliation recording changed field names; if absent, creation.
Returns ((user, is_new, changes), new database state). -/
def upsert_discord_user (db : DB) (user : UserCreateDiscord) (now : Int) :
    (User × Bool × List String) × DB :=
  match get_user_by_discord_id db user.discord_user_id with
  | some existing_user =>
    let s := upsert_reconcile existing_user user
    let users' :=
      replaceFirst db.users
        (fun u => u.discord_user_id == some user.discord_user_id) s.1
    ((s.1, false, s.2), { db with users := users' })
  | none =>
    let r := create_discord_user db user now
    ((r.1, true, []), r.2)

/-- schemas.UserUpdate: optional fields; `none` models a field absent from
the payload (pydantic `exclude_unset`). -/
structure UserUpdate where
  email : Option String
  name : Option String
  is_active : Option Bool
  deriving DecidableEq, Repr

/-- The `setattr` loop of crud.update_user over the explicitly-set fields. -/
def apply_user_update (upd : UserUpdate) (u : User) : User :=
  { u with
    email := match upd.email with | some e => some e | none => u.email,
    name := upd.name.getD u.name,
    is_active := upd.is_active.getD u.is_active }

/-- crud.update_user: applies the set fields, stamps `updated_at`. -/
def update_user (db : DB) (user_id : Nat) (upd : UserUpdate) (now : Int) :
    Option User × DB :=
  match get_user db user_id with
  | none => (none, db)
  | some u =>
    let u' := { apply_user_update upd u with updated_at := some now }
    (some u',
     { db with users := replaceFirst db.users (fun x => x.id == user_id) u' })

/-- schemas.EventCreate. -/
structure EventCreate where
  title : String
  description : Option String
  discord_channel_id : Option String
  start_time : Int
  end_time : Int
  deriving DecidableEq, Repr

/-- The pydantic validator on EventCreate.end_time: `start_time` is a
required field so it is always present in `values`; end_time must exceed
it or the model is rejected. -/
def validate_event_create (c : EventCreate) : Option EventCreate :=
  if c.end_time ≤ c.start_time then none else some c

/-- schemas.EventUpdate: optional fields, `none` = absent from payload. -/
structure EventUpdate where
  title : Option String
  description : Option String
  start_time : Option Int
  end_time : Option Int
  discord_channel_id : Option String
  is_active : Option Bool
  deriving DecidableEq, Repr

/-- The pydantic validator on EventUpdate.end_time.  It only runs when the
payload carries `end_time`.  `values` then holds the payload's
`start_time`, defaulting to None: comparing a datetime against None raises
inside the validator, which pydantic reports as a validation error, so a
payload with `end_time` but no `start_time` is rejected.  A payload
without `end_time` is never checked at all. -/
def validate_event_update (u : EventUpdate) : Option EventUpdate :=
  match u.end_time with
  | none => some u
  | some v =>
    match u.start_time with
    | some s => if v ≤ s then none else some u
    | none => none

/-- crud.create_event: persists a new event row from a validated payload;
`is_active` takes its column default, `user_id` the creating user. -/
def create_event (db : DB) (creator_id : Nat) (c : EventCreate) (now : Int) :
    Event × DB :=
  let db_event : Event :=
    { id := db.nextEventId, title := c.title, description := c.description,
      start_time := c.start_time, end_time := c.end_time,
      discord_channel_id := c.discord_channel_id, user_id := creator_id,
      is_active := true, created_at := now, updated_at := none }
  (db_event,
   { db with events := db.events ++ [db_event],
             nextEventId := db.nextEventId + 1 })

/-- The event-creation operation as exposed at the boundary: pydantic
validation, then crud.create_event; a rejected payload persists nothing. -/
def create_event_checked (db : DB) (creator_id : Nat) (c : EventCreate)
    (now : Int) : Option Event × DB :=
  match validate_event_create c with
  | none => (none, db)
  | some c => let r := create_event db creator_id c now; (some r.1, r.2)

/-- The `setattr` loop of crud.update_event over the explicitly-set fields. -/
def apply_event_update (upd : EventUpdate) (e : Event) : Event :=
  { e with
    title := upd.title.getD e.title,
    description := match upd.description with | some d => some d | none => e.description,
    start_time := upd.start_time.getD e.start_time,
    end_time := upd.end_time.getD e.end_time,
    discord_channel_id :=
      match upd.discord_channel_id with | some c => some c | none => e.discord_channel_id,
    is_active := upd.is_active.getD e.is_active }

/-- crud.update_event: applies the set fields, stamps `updated_at`. -/
def update_event (db : DB) (event_id : Nat) (upd : EventUpdate) (now : Int) :
    Option Event × DB :=
  match get_event db event_id with
  | none => (none, db)
  | some e =>
    let e' := { apply_event_update upd e with updated_at := some now }
    (some e',
     { db with events := replaceFirst db.events (fun x => x.id == event_id) e' })

/-- The event-update operation as exposed at the boundary: pydantic
validation of the payload, then crud.update_event. -/
def update_event_checked (db : DB) (event_id : Nat) (upd : EventUpdate)
    (now : Int) : Option Event × DB :=
  match validate_event_update upd with
  | none => (none, db)
  | some u => update_event db event_id u now

/-- crud.mark_attendance_for_user: the admin-on-behalf-of path.  Returns
((success, message, admin?, target?, event?), new database state). -/
def mark_attendance_for_user (db : DB) (admin_discord_id : String)
    (target_name : String) (event_id? : Option Nat) (now : Int) :
    (Bool × String × Option User × Option User × Option Event) × DB :=
  match get_user_by_discord_id db admin_discord_id with
  | none =>
    ((false, "Admin user not found. Please register first.",
      none, none, none), db)
  | some admin_user =>
    if !admin_user.is_admin then
      ((false, "Only admins can mark attendance for other users.",
        none, none, none), db)
    else
      match get_user_by_name db target_name with
      | none =>
        ((false, "User with name " ++ target_name ++ " not found.",
          some admin_user, none, none), db)
      | some target_user =>
        if admin_user.id == target_user.id then
          ((false,
            "Use the regular /bater-ponto command to mark your own attendance.",
            some admin_user, some target_user, none), db)
        else
          let resolved : Option Nat × Option String :=
            match event_id? with
            | some eid => (some eid, none)
            | none =>
              match get_single_ongoing_event db now with
              | (some ev, _) => (some ev.id, none)
              | (none, err) => (none, some (err.getD "No ongoing event found."))
          match resolved.1 with
          | none =>
            ((false, resolved.2.getD "No ongoing event found.",
              some admin_user, some target_user, none), db)
          | some event_id =>
            match get_event db event_id with
            | none =>
              ((false, "Event with ID " ++ toString event_id ++ " not found.",
                some admin_user, some target_user, none), db)
            | some event =>
              let ce := can_attend_event db event_id now
              if !ce.1 then
                ((false, ce.2.getD "Event cannot be attended at this time.",
                  some admin_user, some target_user, some event), db)
              else if check_user_attendance db target_user.id event_id then
                ((false,
                  target_user.name ++ " (@"
                    ++ target_user.discord_username.getD "None"
                    ++ ") already attended this event.",
                  some admin_user, some target_user, some event), db)
              else
                ((true,
                  "✅ " ++ admin_user.name ++ " marked attendance for "
                    ++ target_user.name ++ " (@"
                    ++ target_user.discord_username.getD "None"
                    ++ ") in event " ++ event.title,
                  some admin_user, some target_user, some event),
                 { db with attendance :=
                    db.attendance ++ [⟨target_user.id, event_id, now⟩] })

/-- Fixture: an active event with window [10, 20]. -/
def sampleEvent : Event where
  id := 1
  title := "t"
  description := none
  start_time := 10
  end_time := 20
  discord_channel_id := none
  user_id := 1
  is_active := true
  created_at := 0
  updated_at := none

/-- Fixture: a registered non-admin user. -/
def sampleUser : User where
  id := 1
  email := some "u@example.com"
  name := "alice"
  hashed_password := "h"
  discord_user_id := some "d1"
  discord_username := some "alice#1"
  is_active := true
  is_admin := false
  created_at := 0
  updated_at := none

/-- Fixture: one user, one event, no attendance yet. -/
def sampleDB : DB where
  users := [sampleUser]
  events := [sampleEvent]
  attendance := []
  nextUserId := 2
  nextEventId := 2

/-- Fixture: `sampleDB` with the attendance of user 1 at event 1 already
recorded. -/
def attendedDB : DB :=
  { sampleDB with attendance := [⟨1, 1, 12⟩] }

theorem length_replaceFirst {α : Type} (l : List α) (p : α → Bool) (x : α) :
    (replaceFirst l p x).length = l.length := by
  induction l with
  | nil => rfl
  | cons y ys ih =>
    by_cases h : p y <;> simp [replaceFirst, h, ih]

theorem replaceFirst_of_find? {α : Type} {l : List α} {p : α → Bool} {x : α}
    (h : l.find? p = some x) : replaceFirst l p x = l := by
  induction l with
  | nil => simp [List.find?] at h
  | cons y ys ih =>
    by_cases hy : p y
    · rw [List.find?_cons_of_pos _ hy] at h
      simp [replaceFirst, hy, (Option.some_inj.mp h).symm]
    · rw [List.find?_cons_of_neg _ (by simpa using hy)] at h
      simp [replaceFirst, hy, ih h]

theorem find?_replaceFirst {α : Type} {l : List α} {p : α → Bool} {x y : α}
    (hx : p x = true) (h : l.find? p = some y) :
    (replaceFirst l p x).find? p = some x := by
  induction l with
  | nil => simp [List.find?] at h
  | cons z zs ih =>
    by_cases hz : p z
    · simp [replaceFirst, hz, List.find?_cons_of_pos _ hx]
    · rw [List.find?_cons_of_neg _ (by simpa using hz)] at h
      simp [replaceFirst, hz, List.find?_cons_of_neg _ (by simpa using hz), ih h]

theorem find?_append_none {α : Type} {l₁ : List α} (l₂ : List α)
    {p : α → Bool} (h : l₁.find? p = none) :
    (l₁ ++ l₂).find? p = l₂.find? p := by
  induction l₁ with
  | nil => rfl
  | cons y ys ih =>
    by_cases hy : p y
    · rw [List.find?_cons_of_pos _ hy] at h; cases h
    · rw [List.find?_cons_of_neg _ (by simpa using hy)] at h
      simp [List.find?_cons_of_neg _ (by simpa using hy), ih h]

theorem find?_pred {α : Type} {l : List α} {p : α → Bool} {x : α}
    (h : l.find? p = some x) : p x = true := by
  induction l with
  | nil => simp [List.find?] at h
  | cons y ys ih =>
    by_cases hy : p y
    · rw [List.find?_cons_of_pos _ hy] at h
      obtain rfl := Option.some_inj.mp h
      exact hy
    · rw [List.find?_cons_of_neg _ (by simpa using hy)] at h
      exact ih h

theorem mem_replaceFirst_of_neg {α : Type} {l : List α} {p : α → Bool}
    {x y : α} (hy : y ∈ l) (hp : p y = false) : y ∈ replaceFirst l p x := by
  induction l with
  | nil => cases hy
  | cons z zs ih =>
    by_cases hz : p z
    · rcases List.mem_cons.mp hy with rfl | hmem
      · rw [hz] at hp; cases hp
      · simp [replaceFirst, hz, hmem]
    · rcases List.mem_cons.mp hy with rfl | hmem
      · simp [replaceFirst, hz]
      · simp [replaceFirst, hz, ih hmem]

/-- C1: the event status computation reports an event attendable (status
"active", can_attend = true) iff `is_active` holds and
`start_time ≤ now ≤ end_time`; both window boundaries are inclusive;
`now < start_time` yields the not-started status and `now > end_time` the
ended status, each with can_attend = false. -/
theorem event_status_window (db : DB) (event_id : Nat) (e : Event)
    (he : get_event db event_id = some e) :
    (∀ now : Int,
      (∃ s, get_event_status db event_id now = some s ∧
          s.can_attend = true ∧ s.status = "Event is currently active") ↔
        (e.is_active = true ∧ e.start_time ≤ now ∧ now ≤ e.end_time)) ∧
    (∀ now : Int, e.is_active = true → now < e.start_time →
      get_event_status db event_id now =
        some { event_id := e.id, title := e.title,
               status := "Event has not started yet", can_attend := false,
               start_time := e.start_time, end_time := e.end_time,
               current_time := now }) ∧
    (∀ now : Int, e.is_active = true → e.start_time ≤ e.end_time →
      e.end_time < now →
      get_event_status db event_id now =
        some { event_id := e.id, title := e.title,
               status := "Event has ended", can_attend := false,
               start_time := e.start_time, end_time := e.end_time,
               current_time := now }) ∧
    (e.is_active = true → e.start_time ≤ e.end_time →
      (∃ s, get_event_status db event_id e.start_time = some s ∧
          s.can_attend = true ∧ s.status = "Event is currently active") ∧
      (∃ s, get_event_status db event_id e.end_time = some s ∧
          s.can_attend = true ∧ s.status = "Event is currently active")) := by
  have hstat : ∀ now : Int, get_event_status db event_id now =
      (if e.is_active then
        (if now < e.start_time then
          some { event_id := e.id, title := e.title,
                 status := "Event has not started yet", can_attend := false,
                 start_time := e.start_time, end_time := e.end_time,
                 current_time := now }
         else if e.end_time < now then
          some { event_id := e.id, title := e.title,
                 status := "Event has ended", can_attend := false,
                 start_time := e.start_time, end_time := e.end_time,
                 current_time := now }
         else
          some { event_id := e.id, title := e.title,
                 status := "Event is currently active", can_attend := true,
                 start_time := e.start_time, end_time := e.end_time,
                 current_time := now })
       else none) := by
    intro now
    simp only [get_event_status, he]
    by_cases hA : e.is_active <;>
      simp [hA, Int.lt_iff_add_one_le, gt_iff_lt]
  refine ⟨?_, ?_, ?_, ?_⟩
  · intro now
    rw [hstat now]
    constructor
    · rintro ⟨s, hs, hca, _⟩
      by_cases hA : e.is_active
      · simp only [hA, if_true] at hs
        split_ifs at hs with h1 h2
        · cases Option.some_inj.mp hs; cases hca
        · cases Option.some_inj.mp hs; cases hca
        · exact ⟨hA, by omega, by omega⟩
      · simp [hA] at hs
    · rintro ⟨hA, h1, h2⟩
      refine ⟨{ event_id := e.id, title := e.title,
                status := "Event is currently active", can_attend := true,
                start_time := e.start_time, end_time := e.end_time,
                current_time := now }, ?_, rfl, rfl⟩
      simp only [hA, if_true]
      rw [if_neg (by omega), if_neg (by omega)]
  · intro now hA h1
    rw [hstat now, if_pos hA, if_pos h1]
  · intro now hA hse h2
    rw [hstat now, if_pos hA, if_neg (by omega), if_pos h2]
  · intro hA hse
    constructor
    · refine ⟨{ event_id := e.id, title := e.title,
                status := "Event is currently active", can_attend := true,
                start_time := e.start_time, end_time := e.end_time,
                current_time := e.start_time }, ?_, rfl, rfl⟩
      rw [hstat e.start_time, if_pos hA, if_neg (by omega), if_neg (by omega)]
    · refine ⟨{ event_id := e.id, title := e.title,
                status := "Event is currently active", can_attend := true,
                start_time := e.start_time, end_time := e.end_time,
                current_time := e.end_time }, ?_, rfl, rfl⟩
      rw [hstat e.end_time, if_pos hA, if_neg (by omega), if_neg (by omega)]

theorem event_status_window_witness :
    ∃ s, get_event_status sampleDB 1 10 = some s ∧
      s.can_attend = true ∧ s.status = "Event is currently active" :=
  ((event_status_window sampleDB 1 sampleEvent (by decide)).2.2.2
    (by decide) (by decide)).1

/-- C2: when attendance of a user at an event is already recorded, a
further mark_attendance call inside the attendable window returns the
event with the "Already marked as attended" message (no error outcome)
and leaves the database — in particular the attendance relation and its
attended_at timestamps — completely unchanged. -/
theorem mark_attendance_already_marked (db : DB) (user_id event_id : Nat)
    (now : Int) (e : Event)
    (hca : (can_attend_event db event_id now).1 = true)
    (hu : (get_user db user_id).isSome = true)
    (he : get_event db event_id = some e)
    (hm : attended_events_mem db user_id event_id = true) :
    mark_attendance db user_id event_id now =
      ((some e, some "Already marked as attended"), db) := by
  obtain ⟨u, hu'⟩ := Option.isSome_iff_exists.mp hu
  simp only [mark_attendance, hca, Bool.not_true, Bool.false_eq_true,
    if_false, hu', he, hm, if_true]

theorem mark_attendance_already_marked_witness :
    mark_attendance attendedDB 1 1 15 =
      ((some sampleEvent, some "Already marked as attended"), attendedDB) :=
  mark_attendance_already_marked attendedDB 1 1 15 sampleEvent
    (by decide) (by decide) (by decide) (by decide)

/-- C3: marking attendance strictly before start_time or strictly after
end_time is rejected: can_attend is false, a reason string is returned,
no event is returned, and the database — in particular the attendance
relation — is unchanged. -/
theorem mark_attendance_out_of_window (db : DB) (user_id event_id : Nat)
    (now : Int) (e : Event)
    (he : get_event db event_id = some e)
    (hw : now < e.start_time ∨ e.end_time < now) :
    (can_attend_event db event_id now).1 = false ∧
    ∃ msg, mark_attendance db user_id event_id now = ((none, some msg), db) := by
  have hce : ∃ m, can_attend_event db event_id now = (false, some m) := by
    simp only [can_attend_event, get_event_status, he]
    by_cases hA : e.is_active
    · rcases hw with h | h
      · exact ⟨"Event has not started yet", by simp [hA, h]⟩
      · by_cases h1 : now < e.start_time
        · exact ⟨"Event has not started yet", by simp [hA, h1]⟩
        · exact ⟨"Event has ended", by simp [hA, h1, h]⟩
    · exact ⟨"Event not found or inactive", by simp [hA]⟩
  obtain ⟨m, hm⟩ := hce
  refine ⟨by rw [hm], m, ?_⟩
  simp only [mark_attendance, hm, Bool.not_false, if_true]

theorem mark_attendance_out_of_window_witness :
    (can_attend_event sampleDB 1 5).1 = false ∧
    ∃ msg, mark_attendance sampleDB 1 1 5 = ((none, some msg), sampleDB) :=
  mark_attendance_out_of_window sampleDB 1 1 5 sampleEvent
    (by decide) (Or.inl (by decide))

/-- C4: get_single_ongoing_event partitions three ways over the set of
events that are active and inside their [start_time, end_time] window:
zero such events yields no event and the "none running" error, two or
more yields no event and the distinct "ambiguous" error (never silently
picking one), and exactly one yields that event with no error. -/
theorem single_ongoing_event_partition (db : DB) (now : Int) :
    (∀ e : Event, e ∈ get_active_events db now ↔
       (e ∈ db.events ∧ e.is_active = true ∧
        e.start_time ≤ now ∧ now ≤ e.end_time)) ∧
    (get_active_events db now = [] →
       get_single_ongoing_event db now =
         (none, some "Nenhum evento rolando agora, parça! Cola mais tarde.")) ∧
    (2 ≤ (get_active_events db now).length →
       get_single_ongoing_event db now =
         (none,
          some "Opa, tem mais de um evento rolando! Usa `/events` para ver todos.")) ∧
    (∀ e : Event, get_active_events db now = [e] →
       get_single_ongoing_event db now = (some e, none)) ∧
    ("Nenhum evento rolando agora, parça! Cola mais tarde." ≠
       "Opa, tem mais de um evento rolando! Usa `/events` para ver todos.") := by
  refine ⟨?_, ?_, ?_, ?_, by decide⟩
  · intro e
    simp [get_active_events, List.mem_filter, and_assoc, ge_iff_le]
  · intro h
    simp [get_single_ongoing_event, h]
  · intro h
    have h0 : (get_active_events db now).length ≠ 0 := by omega
    have h1 : 1 < (get_active_events db now).length := by omega
    simp [get_single_ongoing_event, h0, h1]
  · intro e h
    simp [get_single_ongoing_event, h]

theorem single_ongoing_event_partition_witness :
    get_single_ongoing_event sampleDB 15 = (some sampleEvent, none) :=
  (single_ongoing_event_partition sampleDB 15).2.2.2.1 sampleEvent (by decide)

theorem upsert_reconcile_noop (ex : User) (p : UserCreateDiscord)
    (h1 : ex.name = p.name)
    (h2 : ex.discord_username = some p.discord_username)
    (h3 : ∀ em, p.email = some em → ex.email = some em) :
    upsert_reconcile ex p = (ex, []) := by
  unfold upsert_reconcile
  cases hpe : p.email with
  | none => simp [h1, h2]
  | some em => simp [h1, h2, h3 em hpe]

theorem upsert_reconcile_fields (ex : User) (p : UserCreateDiscord) :
    (upsert_reconcile ex p).1.name = p.name ∧
    (upsert_reconcile ex p).1.discord_username = some p.discord_username ∧
    (upsert_reconcile ex p).1.discord_user_id = ex.discord_user_id ∧
    (∀ em, p.email = some em → (upsert_reconcile ex p).1.email = some em) := by
  unfold upsert_reconcile
  cases hpe : p.email with
  | none =>
    by_cases h1 : ex.name = p.name <;>
      by_cases h2 : ex.discord_username = some p.discord_username <;>
        simp_all [bne_iff_ne]
  | some em =>
    by_cases h1 : ex.name = p.name <;>
      by_cases h2 : ex.discord_username = some p.discord_username <;>
        by_cases h3 : ex.email = some em <;>
          simp_all [bne_iff_ne]

theorem upsert_second_call (db2 : DB) (p : UserCreateDiscord) (t : Int)
    (u : User)
    (hf : db2.users.find?
        (fun x => x.discord_user_id == some p.discord_user_id) = some u)
    (hr : upsert_reconcile u p = (u, [])) :
    upsert_discord_user db2 p t = ((u, false, []), db2) := by
  have hf' : get_user_by_discord_id db2 p.discord_user_id = some u := hf
  simp only [upsert_discord_user, hf', hr]
  rw [replaceFirst_of_find? hf]

/-- C5: calling the Discord-identity upsert twice in sequence with the
identical payload yields, on the second call, the same user with
is_new = false and an empty changes list, and leaves the database state
produced by the first call completely unchanged (in particular no second
user row is created for that Discord id). -/
theorem upsert_discord_user_idempotent (db : DB) (p : UserCreateDiscord)
    (t1 t2 : Int) :
    upsert_discord_user (upsert_discord_user db p t1).2 p t2 =
      (((upsert_discord_user db p t1).1.1, false, []),
       (upsert_discord_user db p t1).2) := by
  cases hfind : get_user_by_discord_id db p.discord_user_id with
  | some ex =>
    have hfind' : db.users.find?
        (fun u => u.discord_user_id == some p.discord_user_id) = some ex :=
      hfind
    have hpred_ex :=
      @find?_pred User db.users
        (fun u => u.discord_user_id == some p.discord_user_id) ex hfind'
    obtain ⟨hname, husername, hdid, hemail⟩ := upsert_reconcile_fields ex p
    have h1 : upsert_discord_user db p t1 = (((upsert_reconcile ex p).1, false, (upsert_reconcile ex p).2), { db with users := replaceFirst db.users (fun u => u.discord_user_id == some p.discord_user_id) (upsert_reconcile ex p).1 }) := by
      simp only [upsert_discord_user, hfind]
    have hpred_u1 :
        ((upsert_reconcile ex p).1.discord_user_id == some p.discord_user_id)
          = true := by
      rw [hdid]; exact hpred_ex
    have hf : ((upsert_discord_user db p t1).2).users.find?
        (fun u => u.discord_user_id == some p.discord_user_id) =
        some (upsert_reconcile ex p).1 := by
      rw [h1]; exact find?_replaceFirst hpred_u1 hfind'
    have hrec2 : upsert_reconcile (upsert_reconcile ex p).1 p =
        ((upsert_reconcile ex p).1, []) :=
      upsert_reconcile_noop _ _ hname husername hemail
    rw [upsert_second_call _ p t2 _ hf hrec2, h1]
  | none =>
    have hfind' : db.users.find?
        (fun u => u.discord_user_id == some p.discord_user_id) = none :=
      hfind
    have h1 : upsert_discord_user db p t1 =
        (((create_discord_user db p t1).1, true, []),
         (create_discord_user db p t1).2) := by
      simp only [upsert_discord_user, hfind]
    have hf : ((upsert_discord_user db p t1).2).users.find?
        (fun u => u.discord_user_id == some p.discord_user_id) =
        some (create_discord_user db p t1).1 := by
      rw [h1]
      show (db.users ++ [(create_discord_user db p t1).1]).find? _ = _
      rw [find?_append_none _ hfind']
      simp [create_discord_user, List.find?]
    have hrec2 : upsert_reconcile (create_discord_user db p t1).1 p =
        ((create_discord_user db p t1).1, []) :=
      upsert_reconcile_noop _ _ rfl rfl (fun em hem => hem)
    rw [upsert_second_call _ p t2 _ hf hrec2, h1]

/-- Fixture: event 1 with window [0, 10], used for validation analysis. -/
def c6Event : Event where
  id := 1
  title := "t"
  description := none
  start_time := 0
  end_time := 10
  discord_channel_id := none
  user_id := 1
  is_active := true
  created_at := 0
  updated_at := none

/-- Fixture: database holding only `c6Event`. -/
def c6DB : DB where
  users := []
  events := [c6Event]
  attendance := []
  nextUserId := 1
  nextEventId := 2

/-- Fixture: an update payload setting only start_time, to 20 — past the
stored end_time of 10. -/
def c6Upd : EventUpdate where
  title := none
  description := none
  start_time := some 20
  end_time := none
  discord_channel_id := none
  is_active := none

/-- Fixture: the event as persisted after applying `c6Upd` at time 30. -/
def c6Result : Event :=
  { c6Event with start_time := 20, updated_at := some 30 }

/-- C6 counterexample: an update payload that sets only start_time is not
validated against the stored end_time: the EventUpdate validator accepts
it, update_event persists it, and the stored event ends with
end_time ≤ start_time — so the update is neither rejected nor leaves the
event unmodified. -/
theorem event_update_validation_counterexample :
    validate_event_update c6Upd = some c6Upd ∧
    update_event_checked c6DB 1 c6Upd 30 =
      (some c6Result, { c6DB with events := [c6Result] }) ∧
    c6Result.end_time ≤ c6Result.start_time ∧
    ({ c6DB with events := [c6Result] } : DB) ≠ c6DB := by
  exact ⟨by decide, by decide, by decide, by decide⟩

/-- C6 (amended): end_time ≤ start_time is always rejected at creation
with nothing persisted; at update the check runs only when the payload
carries end_time — it then rejects when the payload's start_time is also
present and end_time ≤ start_time, and rejects any payload carrying
end_time without start_time; a payload setting only start_time is not
checked against the stored end_time (see the counterexample). -/
theorem event_time_validation (c : EventCreate) (u : EventUpdate) :
    (c.end_time ≤ c.start_time →
      ∀ db creator_id now, create_event_checked db creator_id c now = (none, db)) ∧
    (∀ v s, u.end_time = some v → u.start_time = some s → v ≤ s →
      ∀ db event_id now, update_event_checked db event_id u now = (none, db)) ∧
    (∀ v, u.end_time = some v → u.start_time = none →
      ∀ db event_id now, update_event_checked db event_id u now = (none, db)) := by
  refine ⟨?_, ?_, ?_⟩
  · intro h db creator_id now
    simp [create_event_checked, validate_event_create, h]
  · intro v s hv hs hle db event_id now
    simp [update_event_checked, validate_event_update, hv, hs, hle]
  · intro v hv hs db event_id now
    simp [update_event_checked, validate_event_update, hv, hs]

/-- Fixture: a creation payload with end_time one unit before start_time. -/
def c6BadCreate : EventCreate where
  title := "x"
  description := none
  discord_channel_id := none
  start_time := 10
  end_time := 9

theorem event_time_validation_witness :
    create_event_checked c6DB 1 c6BadCreate 0 = (none, c6DB) :=
  (event_time_validation c6BadCreate c6Upd).1 (by decide) c6DB 1 0

/-- C7: evaluation at a not-yet-started event (window [10, 20], now = 5):
the EventStatus produced by get_event_status consists of exactly the seven
fields event_id, title, status, can_attend, start_time, end_time and
current_time — it carries no seconds-until-start or seconds-until-end
field — and the rejection reason produced for an attendance attempt is
the bare sentence of the status, with no minutes-remaining information. -/
theorem event_status_no_time_remaining_fields :
    get_event_status sampleDB 1 5 =
      some { event_id := 1, title := "t",
             status := "Event has not started yet", can_attend := false,
             start_time := 10, end_time := 20, current_time := 5 } ∧
    can_attend_event sampleDB 1 5 = (false, some "Event has not started yet") := by
  exact ⟨by decide, by decide⟩

/-- C8: when an admin resolves their own record as the target (target name
matched case-insensitively), mark_attendance_for_user rejects with the
self-service message, returns no event (the rejection happens before any
event is resolved, whatever event argument was passed), and leaves the
database — in particular the attendance relation — unchanged. -/
theorem admin_self_target_rejected (db : DB)
    (admin_discord_id target_name : String) (event_id? : Option Nat)
    (now : Int) (admin target : User)
    (h1 : get_user_by_discord_id db admin_discord_id = some admin)
    (h2 : admin.is_admin = true)
    (h3 : get_user_by_name db target_name = some target)
    (h4 : admin.id = target.id) :
    mark_attendance_for_user db admin_discord_id target_name event_id? now =
      ((false,
        "Use the regular /bater-ponto command to mark your own attendance.",
        some admin, some target, none), db) := by
  simp [mark_attendance_for_user, h1, h2, h3, h4]

/-- Fixture: an admin user. -/
def adminUser : User where
  id := 7
  email := none
  name := "boss"
  hashed_password := "h"
  discord_user_id := some "d7"
  discord_username := some "boss#7"
  is_active := true
  is_admin := true
  created_at := 0
  updated_at := none

/-- Fixture: a database holding the admin and one ongoing event. -/
def adminDB : DB where
  users := [adminUser]
  events := [sampleEvent]
  attendance := []
  nextUserId := 8
  nextEventId := 2

theorem admin_self_target_rejected_witness :
    mark_attendance_for_user adminDB "d7" "BOSS" none 15 =
      ((false,
        "Use the regular /bater-ponto command to mark your own attendance.",
        some adminUser, some adminUser, none), adminDB) :=
  admin_self_target_rejected adminDB "d7" "BOSS" none 15 adminUser adminUser
    (by decide) (by decide) (by decide) rfl

/-- C9: update_event changes exactly the payload's explicitly-set fields
plus updated_at, and leaves the event's other fields, the other events,
the users table and the attendance relation unchanged; update_user
satisfies the analogous frame property on users. -/
theorem update_frame :
    (∀ (db : DB) (event_id : Nat) (upd : EventUpdate) (now : Int) (e : Event),
      get_event db event_id = some e →
      ∃ e', (update_event db event_id upd now).1 = some e' ∧
        (upd.title = none → e'.title = e.title) ∧
        (∀ v, upd.title = some v → e'.title = v) ∧
        (upd.description = none → e'.description = e.description) ∧
        (∀ v, upd.description = some v → e'.description = some v) ∧
        (upd.start_time = none → e'.start_time = e.start_time) ∧
        (∀ v, upd.start_time = some v → e'.start_time = v) ∧
        (upd.end_time = none → e'.end_time = e.end_time) ∧
        (∀ v, upd.end_time = some v → e'.end_time = v) ∧
        (upd.discord_channel_id = none →
          e'.discord_channel_id = e.discord_channel_id) ∧
        (∀ v, upd.discord_channel_id = some v →
          e'.discord_channel_id = some v) ∧
        (upd.is_active = none → e'.is_active = e.is_active) ∧
        (∀ v, upd.is_active = some v → e'.is_active = v) ∧
        e'.updated_at = some now ∧ e'.id = e.id ∧
        e'.created_at = e.created_at ∧ e'.user_id = e.user_id ∧
        (update_event db event_id upd now).2.users = db.users ∧
        (update_event db event_id upd now).2.attendance = db.attendance ∧
        (update_event db event_id upd now).2.events.length = db.events.length ∧
        (∀ ev ∈ db.events, ev.id ≠ event_id →
          ev ∈ (update_event db event_id upd now).2.events)) ∧
    (∀ (db : DB) (user_id : Nat) (upd : UserUpdate) (now : Int) (u : User),
      get_user db user_id = some u →
      ∃ u', (update_user db user_id upd now).1 = some u' ∧
        (upd.email = none → u'.email = u.email) ∧
        (∀ v, upd.email = some v → u'.email = some v) ∧
        (upd.name = none → u'.name = u.name) ∧
        (∀ v, upd.name = some v → u'.name = v) ∧
        (upd.is_active = none → u'.is_active = u.is_active) ∧
        (∀ v, upd.is_active = some v → u'.is_active = v) ∧
        u'.updated_at = some now ∧ u'.id = u.id ∧
        u'.hashed_password = u.hashed_password ∧
        u'.discord_user_id = u.discord_user_id ∧
        u'.discord_username = u.discord_username ∧
        u'.is_admin = u.is_admin ∧ u'.created_at = u.created_at ∧
        (update_user db user_id upd now).2.events = db.events ∧
        (update_user db user_id upd now).2.attendance = db.attendance ∧
        (update_user db user_id upd now).2.users.length = db.users.length ∧
        (∀ w ∈ db.users, w.id ≠ user_id →
          w ∈ (update_user db user_id upd now).2.users)) := by
  constructor
  · intro db event_id upd now e he
    simp only [update_event, he]
    refine ⟨{ apply_event_update upd e with updated_at := some now },
      ?_, ?_, ?_, ?_, ?_, ?_, ?_, ?_, ?_, ?_, ?_, ?_, ?_,
      ?_, ?_, ?_, ?_, ?_, ?_, ?_, ?_⟩
    all_goals first
      | rfl
      | trivial
      | exact length_replaceFirst _ _ _
      | (intro ev hmem hne; exact mem_replaceFirst_of_neg hmem (by simp [hne]))
      | (intro h; simp [apply_event_update, h])
      | (intro v h; simp [apply_event_update, h])
  · intro db user_id upd now u hu
    simp only [update_user, hu]
    refine ⟨{ apply_user_update upd u with updated_at := some now },
      ?_, ?_, ?_, ?_, ?_, ?_, ?_, ?_, ?_, ?_, ?_, ?_, ?_,
      ?_, ?_, ?_, ?_, ?_⟩
    all_goals first
      | rfl
      | trivial
      | exact length_replaceFirst _ _ _
      | (intro w hmem hne; exact mem_replaceFirst_of_neg hmem (by simp [hne]))
      | (intro h; simp [apply_user_update, h])
      | (intro v h; simp [apply_user_update, h])

/-- Fixture: an update payload setting only the title. -/
def titleOnlyUpd : EventUpdate where
  title := some "renamed"
  description := none
  start_time := none
  end_time := none
  discord_channel_id := none
  is_active := none

theorem update_frame_witness :
    ∃ e', (update_event sampleDB 1 titleOnlyUpd 99).1 = some e' ∧
      e'.title = "renamed" ∧ e'.end_time = 20 ∧
      (update_event sampleDB 1 titleOnlyUpd 99).2.attendance =
        sampleDB.attendance := by
  obtain ⟨e', heq, t_n, t_s, d_n, d_s, s_n, s_s, en_n, en_s, dc_n, dc_s,
      a_n, a_s, hupd, hid, hcr, huid, hus, hatt, hlen, hmem⟩ :=
    update_frame.1 sampleDB 1 titleOnlyUpd 99 sampleEvent (by decide)
  exact ⟨e', heq, t_s "renamed" rfl, en_n rfl, hatt⟩

/-- C10: the attendance-membership queries are total and answer false —
rather than erroring or reporting a distinct not-found outcome — whenever
the referenced user (by id or by Discord id) or the referenced event does
not exist. -/
theorem check_attendance_missing_false (db : DB) (user_id event_id : Nat)
    (discord_user_id : String) :
    ((get_user db user_id = none ∨ get_event db event_id = none) →
       check_user_attendance db user_id event_id = false) ∧
    ((get_user_by_discord_id db discord_user_id = none ∨
        get_event db event_id = none) →
       check_discord_user_attendance db discord_user_id event_id = false) := by
  constructor
  · rintro (h | h)
    · simp [check_user_attendance, h]
    · cases hu : get_user db user_id <;>
        simp [check_user_attendance, hu, h]
  · rintro (h | h)
    · simp [check_discord_user_attendance, h]
    · cases hu : get_user_by_discord_id db discord_user_id <;>
        simp [check_discord_user_attendance, hu, h]

theorem check_attendance_missing_false_witness :
    check_user_attendance sampleDB 99 1 = false ∧
    check_discord_user_attendance sampleDB "unregistered" 1 = false :=
  ⟨(check_attendance_missing_false sampleDB 99 1 "unregistered").1
      (Or.inl (by decide)),
   (check_attendance_missing_false sampleDB 99 1 "unregistered").2
      (Or.inl (by decide))⟩

end Snfrs
